import Mathlib

/-
Verification of the dworp live-plotting observer (`dworp/plot.py`,
class `VariablePlotter`) against its natural-language specification.

The Python class is shallowly embedded: the mutable plotter object is split
into an immutable configuration (`Plotter`, the fields set in `__init__`)
and an explicit accumulation state (`PState`, the fields `self.time` and
`self.data` that the `plot` method appends to).  Python floats are modelled
as rationals (`Rat`), simulated time values as integers (`Int`), the
environment object as a partial map from attribute names to values, and
Python exceptions as an explicit error type threaded through `Except` /
`Option`.  Rendering-backend effects (figure creation, line drawing,
`plt.pause`) carry no data relevant to the specified properties and are not
modelled; the backend-computed auto value-axis limits consumed by
`axes.get_ylim()` enter as an explicit parameter.
-/

set_option autoImplicit false

namespace Dworp

/-- Python exceptions that the plotter code can raise.
`attributeNotFound` models `AttributeError` from `getattr(env, name)`,
`assertionError` the failed `assert` in `_prepare_format_option`,
`valueError` the `ValueError` raised by `min()`/`max()` on an empty
sequence. -/
inductive PyError where
  | attributeNotFound (name : String)
  | assertionError
  | valueError
deriving DecidableEq, Repr

/-- A Python argument that is either a single string or a list of strings
(the `var` and `fmt` parameters of `VariablePlotter.__init__` accept both,
discriminated with `isinstance(x, str)`). -/
inductive StrOrList where
  | str (s : String)
  | list (l : List String)

/-- Python list repetition `l * n`: `n` copies of `l` concatenated. -/
def listMul {α : Type} (l : List α) (n : Nat) : List α :=
  (List.replicate n l).flatten

/-- `VariablePlotter._prepare_format_option`: normalise `fmt` to a list,
assert its length is 1 or the number of variable names, repeat a single
token to the number of names, and zip into a name-to-token mapping
(`dict(zip(self.var_names, format_))`). -/
def prepare_format_option (var_names : List String) (fmt : StrOrList) :
    Except PyError (List (String × String)) :=
  let format0 := match fmt with
    | .str s => [s]
    | .list l => l
  if format0.length = 1 ∨ format0.length = var_names.length then
    let format1 := if format0.length ≠ var_names.length then
        listMul format0 var_names.length
      else format0
    .ok (var_names.zip format1)
  else
    .error .assertionError

/-- The configuration fields of a `VariablePlotter` as set by `__init__`.
Presentation-only fields (`title`, `xlabel`, `ylabel`, `legend`) carry no
behaviour relevant to the verified properties and are omitted. -/
structure Plotter where
  var_names : List String
  fmt : List (String × String)
  scrolling : Nat
  xlim : Option (Int × Int)
  ylim : Option (Rat × Rat)
  pause : Rat
  output_dir : Option String
  axes_margin : Rat
deriving DecidableEq

/-- `VariablePlotter.__init__`: normalise `var` to a list of names, build
the format mapping (this is the only construction step that can fail), and
record the remaining options.  `self.axes_margin` is fixed at `0.01`.
Note: `pause` is stored without any validation. -/
def VariablePlotter.init (var : StrOrList) (fmt : StrOrList) (scrolling : Nat)
    (xlim : Option (Int × Int)) (ylim : Option (Rat × Rat)) (pause : Rat)
    (output_dir : Option String) : Except PyError Plotter :=
  let var_names := match var with
    | .str s => [s]
    | .list l => l
  match prepare_format_option var_names fmt with
  | .error e => .error e
  | .ok m => .ok ⟨var_names, m, scrolling, xlim, ylim, pause, output_dir, 0.01⟩

/-- The accumulation state of a plotter: `self.time` and `self.data`.
`self.data` is a dict keyed by variable name; it is embedded as an
association list whose keys are `var_names` in order (Python dicts preserve
insertion order). -/
structure PState where
  time : List Int
  data : List (String × List Rat)
deriving DecidableEq

/-- The state right after `__init__`: `self.time = []` and
`self.data = {name: [] for name in self.var_names}`. -/
def initState (cfg : Plotter) : PState :=
  ⟨[], cfg.var_names.map (fun n => (n, []))⟩

/-- The environment object: `getattr(env, name)` returns `some` value or
raises `AttributeError` (`none`). -/
def Env : Type := String → Option Rat

/-- `self.data[name].append(v)`: append `v` to the list stored under key
`name` (keys are distinct in a Python dict, so updating every matching
entry coincides with the dict update). -/
def dictAppendVal (d : List (String × List Rat)) (name : String) (v : Rat) :
    List (String × List Rat) :=
  d.map (fun p => if p.1 = name then (p.1, p.2 ++ [v]) else p)

/-- The sampling loop of `VariablePlotter.plot`:
`for name in self.var_names: self.data[name].append(getattr(env, name))`.
Appends values in order and stops at the first missing attribute,
returning the partially-updated dict together with the raised error. -/
def appendLoop (env : Env) : List String → List (String × List Rat) →
    List (String × List Rat) × Option PyError
  | [], d => (d, none)
  | n :: ns, d =>
    match env n with
    | none => (d, some (.attributeNotFound n))
    | some v => appendLoop env ns (dictAppendVal d n v)

/-- Python slice `xs[i:]`: for a negative `i` the start index is
`len(xs) + i` clamped below at 0; for a non-negative `i` it is `i` clamped
above at `len(xs)`. -/
def pySliceFrom {α : Type} (i : Int) (xs : List α) : List α :=
  if i < 0 then xs.drop (xs.length - (-i).toNat) else xs.drop i.toNat

/-- The display-window selection of `VariablePlotter.plot`: when
`self.scrolling` is truthy (nonzero) take `self.time[-scrolling:]` and
`data[-scrolling:]` for every variable, otherwise use the full series. -/
def plotWindow (scrolling : Nat) (st : PState) :
    List Int × List (String × List Rat) :=
  if scrolling ≠ 0 then
    (pySliceFrom (-(scrolling : Int)) st.time,
     st.data.map (fun p => (p.1, pySliceFrom (-(scrolling : Int)) p.2)))
  else
    (st.time, st.data)

/-- Python `min(iterable)`: fold keeping the current element only when a
later element is strictly smaller (so the first minimal element wins);
raises `ValueError` (`none`) on an empty iterable.  The comparison is a
parameter because the code applies `min` both to numbers and to lists of
numbers. -/
def pyMin {α : Type} (lt : α → α → Bool) : List α → Option α
  | [] => none
  | x :: xs => some (xs.foldl (fun acc y => if lt y acc then y else acc) x)

/-- Python `max(iterable)`: symmetric to `pyMin`. -/
def pyMax {α : Type} (lt : α → α → Bool) : List α → Option α
  | [] => none
  | x :: xs => some (xs.foldl (fun acc y => if lt acc y then y else acc) x)

/-- Python's `<` on lists of numbers: lexicographic, with a proper prefix
smaller than the longer list. -/
def pyListLt : List Rat → List Rat → Bool
  | _, [] => false
  | [], _ :: _ => true
  | a :: as, b :: bs =>
    if a < b then true else if b < a then false else pyListLt as bs

/-- Strict order on `Rat` as a Boolean test. -/
def ratLt (a b : Rat) : Bool := decide (a < b)

/-- Strict order on `Int` as a Boolean test. -/
def intLt (a b : Int) : Bool := decide (a < b)

/-- The value-axis half of `VariablePlotter.set_axes_limits`: when
`self.ylim` is set, read the backend's auto-computed limits
(`axes.get_ylim()`, the `backend_ylim` parameter), take 1% of their span as
margin, and merge the floor limits with
`min(min(self.data.values())) - margin` and
`max(max(self.data.values())) + margin`.  Note the inner `min`/`max` range
over the dict's *lists of values* (compared lexicographically), the outer
over the chosen list. -/
def computeYlim (ylim : Option (Rat × Rat)) (axes_margin : Rat)
    (backend_ylim : Rat × Rat) (data : List (String × List Rat)) :
    Except PyError (Option (Rat × Rat)) :=
  match ylim with
  | none => .ok none
  | some yl =>
    let margin := axes_margin * |backend_ylim.2 - backend_ylim.1|
    match pyMin pyListLt (data.map Prod.snd) with
    | none => .error .valueError
    | some minRow =>
      match pyMin ratLt minRow with
      | none => .error .valueError
      | some dmin =>
        match pyMax pyListLt (data.map Prod.snd) with
        | none => .error .valueError
        | some maxRow =>
          match pyMax ratLt maxRow with
          | none => .error .valueError
          | some dmax =>
            .ok (some (min yl.1 (dmin - margin), max yl.2 (dmax + margin)))

/-- The time-axis half of `VariablePlotter.set_axes_limits`: when
`self.xlim` is set, merge it with the extent of `self.time`; no margin. -/
def computeXlim (xlim : Option (Int × Int)) (time : List Int) :
    Except PyError (Option (Int × Int)) :=
  match xlim with
  | none => .ok none
  | some xl =>
    match pyMin intLt time, pyMax intLt time with
    | some tmin, some tmax => .ok (some (min xl.1 tmin, max xl.2 tmax))
    | _, _ => .error .valueError

/-- The axis limits actually installed by `set_axes_limits` (`none` means
the corresponding `axes.set_*lim` call was skipped and the backend keeps
auto-scaling). -/
structure AxesSet where
  ylimSet : Option (Rat × Rat)
  xlimSet : Option (Int × Int)
deriving DecidableEq

/-- `VariablePlotter.set_axes_limits`: the value-axis block runs first, the
time-axis block second; an exception in the first prevents the second. -/
def set_axes_limits (ylim : Option (Rat × Rat)) (xlim : Option (Int × Int))
    (axes_margin : Rat) (backend_ylim : Rat × Rat)
    (data : List (String × List Rat)) (time : List Int) :
    Except PyError AxesSet :=
  match computeYlim ylim axes_margin backend_ylim data with
  | .error e => .error e
  | .ok ys =>
    match computeXlim xlim time with
    | .error e => .error e
    | .ok xs => .ok ⟨ys, xs⟩

/-- What a successful redraw produced: the windowed series handed to the
line-drawing calls and the installed axis limits. -/
structure RenderResult where
  plot_time : List Int
  plot_data : List (String × List Rat)
  axes : AxesSet
deriving DecidableEq

/-- The redraw phase of `VariablePlotter.plot` on the already-appended
state: select the display window, draw one line per variable over it, and
apply the axis-limit policy. -/
def plotDraw (cfg : Plotter) (st2 : PState) (backend_ylim : Rat × Rat) :
    PState × Except PyError RenderResult :=
  match set_axes_limits cfg.ylim cfg.xlim cfg.axes_margin backend_ylim
      st2.data st2.time with
  | .error e => (st2, .error e)
  | .ok a =>
    (st2, .ok ⟨(plotWindow cfg.scrolling st2).1,
               (plotWindow cfg.scrolling st2).2, a⟩)

/-- `VariablePlotter.plot`: append `now` to `self.time`, sample every
tracked variable off `env` (an `AttributeError` propagates, leaving the
partial appends in place), then redraw.  Returns the updated accumulation
state together with the redraw outcome. -/
def VariablePlotter.plot (cfg : Plotter) (st : PState) (now : Int) (env : Env)
    (backend_ylim : Rat × Rat) : PState × Except PyError RenderResult :=
  match appendLoop env cfg.var_names st.data with
  | (d, some e) => (⟨st.time ++ [now], d⟩, .error e)
  | (d, none) => plotDraw cfg ⟨st.time ++ [now], d⟩ backend_ylim

/-- Python `"..0:05d..".format(now)`: the decimal rendering of `now`,
zero-padded between the sign and the digits to a total width of 5. -/
def format05 (n : Int) : String :=
  let sign := if n < 0 then "-" else ""
  let digits := toString n.natAbs
  sign ++ String.mk (List.replicate (5 - (sign.length + digits.length)) '0')
    ++ digits

/-- `VariablePlotter.save`: the path of the frame written for time `now`
(`os.path.join(self.output_dir, ...)` with the zero-padded name and the
PNG extension). -/
def savePath (dir : String) (now : Int) : String :=
  dir ++ "/" ++ format05 now ++ ".png"

/-- Outcome of one `update` call: a completed redraw, process termination
because the user closed the figure window, or a propagated exception. -/
inductive UpdateOutcome where
  | ok (r : RenderResult)
  | terminated
  | err (e : PyError)
deriving DecidableEq

/-- `VariablePlotter.update`: redraw via `plot` (exceptions propagate with
no frame written), then — after the draw and the pacing pause — terminate
if every figure window is gone (`quit()`), and otherwise write one frame
when `self.output_dir` is set.  The third component lists the files written
by this call. -/
def VariablePlotter.update (cfg : Plotter) (st : PState) (now : Int)
    (env : Env) (backend_ylim : Rat × Rat) (figuresOpen : Bool) :
    PState × UpdateOutcome × List String :=
  match VariablePlotter.plot cfg st now env backend_ylim with
  | (st1, .error e) => (st1, .err e, [])
  | (st1, .ok r) =>
    if figuresOpen then
      match cfg.output_dir with
      | some dir => (st1, .ok r, [savePath dir now])
      | none => (st1, .ok r, [])
    else
      (st1, .terminated, [])

/-- `VariablePlotter.step`: delegates to `update`. -/
def VariablePlotter.step (cfg : Plotter) (st : PState) (now : Int) (env : Env)
    (backend_ylim : Rat × Rat) (figuresOpen : Bool) :
    PState × UpdateOutcome × List String :=
  VariablePlotter.update cfg st now env backend_ylim figuresOpen

/-- `VariablePlotter.start`: `prepare` only creates the figure (a backend
effect carrying no data), after which `start` performs exactly `update`. -/
def VariablePlotter.start (cfg : Plotter) (st : PState) (now : Int) (env : Env)
    (backend_ylim : Rat × Rat) (figuresOpen : Bool) :
    PState × UpdateOutcome × List String :=
  VariablePlotter.update cfg st now env backend_ylim figuresOpen

/-- One lifecycle invocation by the simulation driver: the reported time,
the environment snapshot, the backend's auto value-axis limits at redraw
time, and whether any figure window is still open. -/
structure StepCall where
  now : Int
  env : Env
  backend_ylim : Rat × Rat
  figuresOpen : Bool

/-- Run a sequence of driver lifecycle calls, threading the accumulation
state (the state mutation persists even when a call raises, as in
Python). -/
def runSteps (cfg : Plotter) : PState → List StepCall → PState
  | st, [] => st
  | st, c :: cs =>
    runSteps cfg
      (VariablePlotter.step cfg st c.now c.env c.backend_ylim c.figuresOpen).1
      cs

/-! ### Helper lemmas -/

lemma listMul_singleton (t : String) (n : Nat) :
    listMul [t] n = List.replicate n t := by
  induction n with
  | zero => rfl
  | succ k ih =>
    simp only [listMul, List.replicate_succ, List.flatten_cons] at ih ⊢
    simp [ih]

lemma zip_replicate_self (names : List String) (t : String) :
    names.zip (List.replicate names.length t)
      = names.map (fun n => (n, t)) := by
  induction names with
  | nil => rfl
  | cons a as ih => simp [List.replicate_succ, ih]

lemma foldl_choice_mem {α : Type} (f : α → α → α)
    (hf : ∀ a b, f a b = a ∨ f a b = b) :
    ∀ (xs : List α) (x : α), xs.foldl f x ∈ x :: xs := by
  intro xs
  induction xs with
  | nil => intro x; simp
  | cons y ys ih =>
    intro x
    have h := ih (f x y)
    simp only [List.foldl_cons]
    rcases List.mem_cons.mp h with h1 | h2
    · rcases hf x y with h3 | h3 <;> rw [h1, h3] <;> simp
    · simp [h2]

lemma pyMin_mem {α : Type} (lt : α → α → Bool) (x : α) (xs : List α) (m : α)
    (h : pyMin lt (x :: xs) = some m) : m ∈ x :: xs := by
  simp only [pyMin, Option.some_inj] at h
  subst h
  exact foldl_choice_mem _
    (fun a b => by by_cases hab : lt b a <;> simp [hab]) xs x

lemma pyMax_mem {α : Type} (lt : α → α → Bool) (x : α) (xs : List α) (m : α)
    (h : pyMax lt (x :: xs) = some m) : m ∈ x :: xs := by
  simp only [pyMax, Option.some_inj] at h
  subst h
  exact foldl_choice_mem _
    (fun a b => by by_cases hab : lt a b <;> simp [hab]) xs x

lemma pyMin_int_eq (x : Int) (xs : List Int) :
    pyMin intLt (x :: xs) = some (xs.foldl min x) := by
  simp only [pyMin, Option.some_inj]
  congr 1
  funext acc y
  by_cases h : y < acc
  · simp [intLt, h, min_eq_right h.le]
  · simp [intLt, h, min_eq_left (not_lt.mp h)]

lemma pyMax_int_eq (x : Int) (xs : List Int) :
    pyMax intLt (x :: xs) = some (xs.foldl max x) := by
  simp only [pyMax, Option.some_inj]
  congr 1
  funext acc y
  by_cases h : acc < y
  · simp [intLt, h, max_eq_right h.le]
  · simp [intLt, h, max_eq_left (not_lt.mp h)]

/-! ### Claim theorems (first group) -/

/-- C2: with `windowSize = N > 0` the displayed window of the time series
and of every variable's value series is exactly the last `min(N, L)`
elements of the accumulated series in time order (a suffix of length
`min N L`); with `windowSize = 0` the window is the full series. -/
theorem plotWindow_scrolling_spec (N : Nat) (st : PState) (h : N ≠ 0) :
    (plotWindow N st).1 = st.time.drop (st.time.length - N)
    ∧ (plotWindow N st).1.length = min N st.time.length
    ∧ st.time.take (st.time.length - N) ++ (plotWindow N st).1 = st.time
    ∧ (plotWindow N st).2
        = st.data.map (fun p => (p.1, p.2.drop (p.2.length - N)))
    ∧ plotWindow 0 st = (st.time, st.data) := by
  have hslice : ∀ {α : Type} (xs : List α),
      pySliceFrom (-(N : Int)) xs = xs.drop (xs.length - N) := by
    intro α xs
    have hneg : -(N : Int) < 0 := by omega
    simp only [pySliceFrom, if_pos hneg, neg_neg, Int.toNat_natCast]
  have h1 : (plotWindow N st).1 = st.time.drop (st.time.length - N) := by
    simp [plotWindow, h, hslice]
  refine ⟨h1, ?_, ?_, ?_, ?_⟩
  · rw [h1, List.length_drop]; omega
  · rw [h1]; exact List.take_append_drop _ _
  · simp [plotWindow, h, hslice]
  · simp [plotWindow]

/-- C4: constructing with a single style token maps every variable name to
that token; with a token list of matching length, names map to tokens
pairwise in order; with a token list of any other length construction
fails with the configuration assertion. -/
theorem init_style_token_mapping (names ts1 ts2 : List String) (t : String)
    (sc : Nat) (xl : Option (Int × Int)) (yl : Option (Rat × Rat)) (pa : Rat)
    (od : Option String)
    (h1 : ts1.length = names.length) (h2 : ts2.length ≠ 1)
    (h3 : ts2.length ≠ names.length) :
    Except.map Plotter.fmt
        (VariablePlotter.init (.list names) (.str t) sc xl yl pa od)
      = .ok (names.map (fun n => (n, t)))
    ∧ Except.map Plotter.fmt
        (VariablePlotter.init (.list names) (.list ts1) sc xl yl pa od)
      = .ok (names.zip ts1)
    ∧ VariablePlotter.init (.list names) (.list ts2) sc xl yl pa od
      = .error .assertionError := by
  refine ⟨?_, ?_, ?_⟩
  · have hfmt : prepare_format_option names (.str t)
        = .ok (names.map (fun n => (n, t))) := by
      by_cases hn : names.length = 1
      · obtain ⟨a, rfl⟩ := List.length_eq_one.mp hn
        simp [prepare_format_option]
      · have hne : (1 : Nat) ≠ names.length := fun hh => hn hh.symm
        simp [prepare_format_option, hne, listMul_singleton,
          zip_replicate_self]
    simp [VariablePlotter.init, hfmt, Except.map]
  · have hfmt : prepare_format_option names (.list ts1)
        = .ok (names.zip ts1) := by
      simp [prepare_format_option, h1]
    simp [VariablePlotter.init, hfmt, Except.map]
  · have hfmt : prepare_format_option names (.list ts2)
        = .error .assertionError := by
      simp [prepare_format_option, h2, h3]
    simp [VariablePlotter.init, hfmt]

/-- C4 witness: instance with two variable names, a shared token "x", a
matching pair of tokens, and a mismatched triple of tokens. -/
theorem init_style_token_mapping_witness :
    Except.map Plotter.fmt
        (VariablePlotter.init (.list ["a", "b"]) (.str "x") 0 none none 1 none)
      = .ok ([("a", "x"), ("b", "x")])
    ∧ Except.map Plotter.fmt
        (VariablePlotter.init (.list ["a", "b"]) (.list ["x", "y"]) 0 none
          none 1 none)
      = .ok ([("a", "x"), ("b", "y")])
    ∧ VariablePlotter.init (.list ["a", "b"]) (.list ["x", "y", "z"]) 0 none
        none 1 none
      = .error .assertionError :=
  init_style_token_mapping ["a", "b"] ["x", "y"] ["x", "y", "z"] "x" 0 none
    none 1 none (by decide) (by decide) (by decide)

/-- C2 witness: window size 3 over five accumulated points keeps the last
three in order. -/
theorem plotWindow_scrolling_spec_witness :
    (plotWindow 3 ⟨[0, 1, 2, 3, 4], [("a", [10, 12, 9, 15, 11])]⟩).1
        = ([0, 1, 2, 3, 4] : List Int).drop (([0, 1, 2, 3, 4] : List Int).length - 3)
    ∧ (plotWindow 3 ⟨[0, 1, 2, 3, 4], [("a", [10, 12, 9, 15, 11])]⟩).1.length
        = min 3 ([0, 1, 2, 3, 4] : List Int).length
    ∧ ([0, 1, 2, 3, 4] : List Int).take (([0, 1, 2, 3, 4] : List Int).length - 3)
        ++ (plotWindow 3 ⟨[0, 1, 2, 3, 4], [("a", [10, 12, 9, 15, 11])]⟩).1
        = [0, 1, 2, 3, 4]
    ∧ (plotWindow 3 ⟨[0, 1, 2, 3, 4], [("a", [10, 12, 9, 15, 11])]⟩).2
        = [("a", [(10 : Rat), 12, 9, 15, 11])].map
            (fun p => (p.1, p.2.drop (p.2.length - 3)))
    ∧ plotWindow 0 ⟨[0, 1, 2, 3, 4], [("a", [10, 12, 9, 15, 11])]⟩
        = ([0, 1, 2, 3, 4], [("a", [10, 12, 9, 15, 11])]) :=
  plotWindow_scrolling_spec 3 ⟨[0, 1, 2, 3, 4], [("a", [10, 12, 9, 15, 11])]⟩
    (by decide)

/-- C5 counterexample: the claim says every `pacingDelay ≤ 0` makes
construction fail, but constructing with pacing delay `0` (and otherwise
valid arguments) succeeds — `__init__` never validates `pause`. -/
theorem init_pause_zero_ok :
    (VariablePlotter.init (.str "a") (.str "b") 0 none none 0 none).isOk
      = true := by decide

/-- C5 (amended): construction never validates the pacing delay — for
every pacing delay (zero and negative included) construction with
otherwise valid arguments succeeds; in particular `0.001` succeeds. -/
theorem init_ignores_pause (pa : Rat) :
    (VariablePlotter.init (.str "a") (.str "b") 0 none none pa none).isOk
      = true := rfl

/-- C1 (code bug): on the state with two tracked variables holding values
`a = [5, 0]` and `b = [1, 10]`, floor limits `(3, 4)` and backend span
`(0, 10)` (margin `1/10`), the code sets the value axis to
`(9/10, 51/10)`: `min(min(data.values()))` is the minimum of the
lexicographically smallest list (`1`, not the global minimum `0`) and
`max(max(data.values()))` the maximum of the lexicographically largest
list (`5`, not the global maximum `10`), so the claimed limits
`(min 3 (0 - 1/10), max 4 (10 + 1/10)) = (-1/10, 101/10)` are not
produced and the data point `10` lies outside the rendered axis. -/
theorem set_axes_limits_lex_min_bug :
    set_axes_limits (some (3, 4)) none (1 / 100) (0, 10)
        [("a", [5, 0]), ("b", [1, 10])] [0, 1]
      = .ok ⟨some (9 / 10, 51 / 10), none⟩
    ∧ min (3 : Rat) (0 - 1 / 10) = -(1 / 10)
    ∧ max (4 : Rat) (10 + 1 / 10) = 101 / 10
    ∧ ((9 : Rat) / 10 ≠ -(1 / 10) ∧ (51 : Rat) / 10 ≠ 101 / 10) := by
  refine ⟨?_, by norm_num, by norm_num, by norm_num, by norm_num⟩
  norm_num [set_axes_limits, computeYlim, computeXlim, pyMin, pyMax,
    pyListLt, ratLt]

/-! ### The sampling loop -/

lemma appendLoop_all_some (env : Env) (names : List String)
    (d : List (String × List Rat)) (h : ∀ n ∈ names, (env n).isSome) :
    appendLoop env names d
      = (d.map (fun p =>
          (p.1, p.2 ++ List.replicate (names.count p.1) ((env p.1).getD 0))),
         none) := by
  induction names generalizing d with
  | nil => simp [appendLoop]
  | cons n ns ih =>
    obtain ⟨v, hv⟩ :=
      Option.isSome_iff_exists.mp (h n (List.mem_cons_self n ns))
    rw [appendLoop, hv]
    show appendLoop env ns (dictAppendVal d n v) = _
    rw [ih (dictAppendVal d n v) (fun m hm => h m (List.mem_cons_of_mem _ hm))]
    simp only [dictAppendVal, List.map_map, Prod.mk.injEq, and_true]
    congr 1
    funext p
    by_cases hp : p.1 = n
    · simp only [Function.comp, if_pos hp, hp, hv, List.count_cons,
        Option.getD_some, beq_self_eq_true, if_pos]
      simp [List.append_assoc, List.replicate_succ]
    · have hbeq : (p.1 == n) = false := beq_eq_false_iff_ne.mpr hp
      have hne : ¬n = p.1 := fun hh => hp hh.symm
      simp [Function.comp, if_neg hp, List.count_cons, hbeq, hne]

lemma appendLoop_split (env : Env) (as bs : List String)
    (d : List (String × List Rat)) :
    appendLoop env (as ++ bs) d
      = match appendLoop env as d with
        | (d1, none) => appendLoop env bs d1
        | (d1, some e) => (d1, some e) := by
  induction as generalizing d with
  | nil => simp [appendLoop]
  | cons n ns ih =>
    cases hv : env n with
    | none => simp [appendLoop, hv]
    | some v => simp [appendLoop, hv, ih]

lemma appendLoop_firstMissing (env : Env) (names : List String) (m : String)
    (h : names.find? (fun n => (env n).isNone) = some m) :
    ∀ d, (appendLoop env names d).2 = some (.attributeNotFound m) := by
  induction names with
  | nil => simp at h
  | cons n ns ih =>
    intro d
    cases hv : env n with
    | none =>
      have hm : n = m := by
        rw [List.find?_cons] at h
        simp [hv] at h
        exact h
      subst hm
      simp [appendLoop, hv]
    | some v =>
      have h' : ns.find? (fun n => (env n).isNone) = some m := by
        rw [List.find?_cons] at h
        simpa [hv] using h
      simp [appendLoop, hv, ih h']

/-! ### Shape lemmas for `plot`, `update`, `step` -/

lemma plot_fst (cfg : Plotter) (st : PState) (now : Int) (env : Env)
    (b : Rat × Rat) (d : List (String × List Rat)) (e : Option PyError)
    (h : appendLoop env cfg.var_names st.data = (d, e)) :
    (VariablePlotter.plot cfg st now env b).1 = ⟨st.time ++ [now], d⟩ := by
  unfold VariablePlotter.plot
  rw [h]
  cases e with
  | none =>
    show (plotDraw cfg ⟨st.time ++ [now], d⟩ b).1 = _
    unfold plotDraw
    cases hs : set_axes_limits cfg.ylim cfg.xlim cfg.axes_margin b d
        (st.time ++ [now]) <;> rfl
  | some e => rfl

lemma update_fst (cfg : Plotter) (st : PState) (now : Int) (env : Env)
    (b : Rat × Rat) (figs : Bool) :
    (VariablePlotter.update cfg st now env b figs).1
      = (VariablePlotter.plot cfg st now env b).1 := by
  unfold VariablePlotter.update
  cases hp : VariablePlotter.plot cfg st now env b with
  | mk st1 r =>
    cases r with
    | error e => rfl
    | ok r => cases figs <;> cases cfg.output_dir <;> rfl

lemma update_of_appendLoop_err (cfg : Plotter) (st : PState) (now : Int)
    (env : Env) (b : Rat × Rat) (figs : Bool)
    (d : List (String × List Rat)) (e : PyError)
    (h : appendLoop env cfg.var_names st.data = (d, some e)) :
    VariablePlotter.update cfg st now env b figs
      = (⟨st.time ++ [now], d⟩, .err e, []) := by
  unfold VariablePlotter.update VariablePlotter.plot
  rw [h]

/-! ### Claim theorems (second group) -/

/-- C6: when some tracked variable name is absent on `env` (equivalently,
`find?` locates a first missing name `m`), the step call fails with
`AttributeError` for exactly that attribute, the error is returned to the
caller unmodified, and no frame is exported by the failed call. -/
theorem step_missing_attribute_error (cfg : Plotter) (st : PState)
    (now : Int) (env : Env) (b : Rat × Rat) (figs : Bool) (m : String)
    (hm : cfg.var_names.find? (fun n => (env n).isNone) = some m) :
    (VariablePlotter.step cfg st now env b figs).2
      = (.err (.attributeNotFound m), [])
    ∧ env m = none
    ∧ m ∈ cfg.var_names := by
  have herr := appendLoop_firstMissing env cfg.var_names m hm st.data
  have hmem := List.mem_of_find?_eq_some hm
  have hnone : env m = none := by
    have hsome := List.find?_some hm
    simpa [Option.isNone_iff_eq_none] using hsome
  refine ⟨?_, hnone, hmem⟩
  cases happ : appendLoop env cfg.var_names st.data with
  | mk d e =>
    rw [happ] at herr
    simp only at herr
    subst herr
    rw [VariablePlotter.step, update_of_appendLoop_err cfg st now env b figs
      d (.attributeNotFound m) happ]

/-- C6 witness: a plotter tracking "a" and "b" stepped against an
environment that only defines "a". -/
theorem step_missing_attribute_error_witness :
    (VariablePlotter.step
        ⟨["a", "b"], [("a", "x"), ("b", "x")], 0, none, none, 1, none, 1 / 100⟩
        ⟨[], [("a", []), ("b", [])]⟩ 0
        (fun n => if n = "a" then some (1 : Rat) else none) (0, 0) true).2
      = (.err (.attributeNotFound "b"), [])
    ∧ (fun n => if n = "a" then some (1 : Rat) else none) "b" = none
    ∧ "b" ∈ (⟨["a", "b"], [("a", "x"), ("b", "x")], 0, none, none, 1, none,
        1 / 100⟩ : Plotter).var_names := by
  exact step_missing_attribute_error
    ⟨["a", "b"], [("a", "x"), ("b", "x")], 0, none, none, 1, none, 1 / 100⟩
    ⟨[], [("a", []), ("b", [])]⟩ 0
    (fun n => if n = "a" then some (1 : Rat) else none) (0, 0) true "b"
    (by decide)

/-- C10: a failing step is not atomic — when the variables before `k` are
present on `env` and `k` is missing, the step raises `AttributeError` for
`k` after having appended the time sample and the values of the variables
preceding `k`, so the time series ends up exactly one element longer than
the value series of `k` and of every later tracked variable. -/
theorem step_partial_append_on_error (cfg : Plotter) (st : PState)
    (now : Int) (env : Env) (b : Rat × Rat) (figs : Bool)
    (pre post : List String) (k : String)
    (hnames : cfg.var_names = pre ++ k :: post)
    (hnd : cfg.var_names.Nodup)
    (hinv : ∀ p ∈ st.data, p.2.length = st.time.length)
    (hpre : ∀ n ∈ pre, (env n).isSome)
    (hk : env k = none) :
    (VariablePlotter.step cfg st now env b figs).2.1
      = .err (.attributeNotFound k)
    ∧ ∀ p ∈ (VariablePlotter.step cfg st now env b figs).1.data,
        p.1 ∈ k :: post →
          (VariablePlotter.step cfg st now env b figs).1.time.length
            = p.2.length + 1 := by
  have hd1 := appendLoop_all_some env pre st.data hpre
  have hsplit := appendLoop_split env pre (k :: post) st.data
  rw [hd1] at hsplit
  simp only [appendLoop, hk] at hsplit
  have happ : appendLoop env cfg.var_names st.data
      = (st.data.map (fun p =>
          (p.1, p.2 ++ List.replicate (pre.count p.1) ((env p.1).getD 0))),
         some (.attributeNotFound k)) := by
    rw [hnames, hsplit]
  have hupd := update_of_appendLoop_err cfg st now env b figs _ _ happ
  rw [VariablePlotter.step, hupd]
  constructor
  · rfl
  · intro p hp hmem
    simp only at hp ⊢
    obtain ⟨q, hq, rfl⟩ := List.mem_map.mp hp
    have hdisj : List.Disjoint pre (k :: post) :=
      List.disjoint_of_nodup_append (hnames ▸ hnd)
    have hnotpre : q.1 ∉ pre := fun hin => hdisj hin hmem
    have hcount : pre.count q.1 = 0 := List.count_eq_zero.mpr hnotpre
    simp [hcount, hinv q hq]

/-! ### Equation lemmas for `plot`, `update`, `set_axes_limits` -/

lemma plot_eq_err (cfg : Plotter) (st : PState) (now : Int) (env : Env)
    (b : Rat × Rat) (d : List (String × List Rat)) (e : PyError)
    (h : appendLoop env cfg.var_names st.data = (d, some e)) :
    VariablePlotter.plot cfg st now env b = (⟨st.time ++ [now], d⟩, .error e) := by
  unfold VariablePlotter.plot
  rw [h]

lemma plot_eq_ok (cfg : Plotter) (st : PState) (now : Int) (env : Env)
    (b : Rat × Rat) (d : List (String × List Rat))
    (h : appendLoop env cfg.var_names st.data = (d, none)) :
    VariablePlotter.plot cfg st now env b
      = plotDraw cfg ⟨st.time ++ [now], d⟩ b := by
  unfold VariablePlotter.plot
  rw [h]

lemma update_plot_error (cfg : Plotter) (st : PState) (now : Int) (env : Env)
    (b : Rat × Rat) (figs : Bool) (st0 : PState) (e : PyError)
    (h : VariablePlotter.plot cfg st now env b = (st0, .error e)) :
    VariablePlotter.update cfg st now env b figs = (st0, .err e, []) := by
  unfold VariablePlotter.update
  rw [h]

lemma update_false_terminated (cfg : Plotter) (st : PState) (now : Int)
    (env : Env) (b : Rat × Rat) (st0 : PState) (r0 : RenderResult)
    (h : VariablePlotter.plot cfg st now env b = (st0, .ok r0)) :
    VariablePlotter.update cfg st now env b false
      = (st0, .terminated, []) := by
  unfold VariablePlotter.update
  rw [h]
  rfl

lemma update_true_frames (cfg : Plotter) (st : PState) (now : Int) (env : Env)
    (b : Rat × Rat) (st0 : PState) (r0 : RenderResult) (dir : String)
    (hdir : cfg.output_dir = some dir)
    (h : VariablePlotter.plot cfg st now env b = (st0, .ok r0)) :
    VariablePlotter.update cfg st now env b true
      = (st0, .ok r0, [savePath dir now]) := by
  unfold VariablePlotter.update
  rw [h, hdir]
  rfl

lemma update_true_noframes (cfg : Plotter) (st : PState) (now : Int)
    (env : Env) (b : Rat × Rat) (st0 : PState) (r0 : RenderResult)
    (hdir : cfg.output_dir = none)
    (h : VariablePlotter.plot cfg st now env b = (st0, .ok r0)) :
    VariablePlotter.update cfg st now env b true = (st0, .ok r0, []) := by
  unfold VariablePlotter.update
  rw [h, hdir]
  rfl

lemma set_axes_limits_yerr (ylim : Option (Rat × Rat))
    (xlim : Option (Int × Int)) (am : Rat) (bl : Rat × Rat)
    (data : List (String × List Rat)) (time : List Int) (e : PyError)
    (hy : computeYlim ylim am bl data = .error e) :
    set_axes_limits ylim xlim am bl data time = .error e := by
  unfold set_axes_limits
  rw [hy]

lemma set_axes_limits_xerr (ylim : Option (Rat × Rat))
    (xlim : Option (Int × Int)) (am : Rat) (bl : Rat × Rat)
    (data : List (String × List Rat)) (time : List Int)
    (ys : Option (Rat × Rat)) (e : PyError)
    (hy : computeYlim ylim am bl data = .ok ys)
    (hx : computeXlim xlim time = .error e) :
    set_axes_limits ylim xlim am bl data time = .error e := by
  unfold set_axes_limits
  rw [hy, hx]

lemma set_axes_limits_eq_ok (ylim : Option (Rat × Rat))
    (xlim : Option (Int × Int)) (am : Rat) (bl : Rat × Rat)
    (data : List (String × List Rat)) (time : List Int)
    (ys : Option (Rat × Rat)) (xs : Option (Int × Int))
    (hy : computeYlim ylim am bl data = .ok ys)
    (hx : computeXlim xlim time = .ok xs) :
    set_axes_limits ylim xlim am bl data time = .ok ⟨ys, xs⟩ := by
  unfold set_axes_limits
  rw [hy, hx]

lemma computeXlim_some_eq (x0 x1 t : Int) (ts : List Int) :
    computeXlim (some (x0, x1)) (t :: ts)
      = .ok (some (min x0 (ts.foldl min t), max x1 (ts.foldl max t))) := by
  unfold computeXlim
  rw [pyMin_int_eq, pyMax_int_eq]

/-! ### Success of the axis-limit policy on non-empty data -/

lemma mem_map_snd_ne_nil (data : List (String × List Rat))
    (hrows : ∀ p ∈ data, p.2 ≠ []) (r : List Rat)
    (hr : r ∈ data.map Prod.snd) : r ≠ [] := by
  obtain ⟨q, hq, rfl⟩ := List.mem_map.mp hr
  exact hrows q hq

lemma computeYlim_ok (ylim : Option (Rat × Rat)) (am : Rat) (bl : Rat × Rat)
    (data : List (String × List Rat))
    (hd : data ≠ []) (hrows : ∀ p ∈ data, p.2 ≠ []) :
    (computeYlim ylim am bl data).isOk = true := by
  cases ylim with
  | none => rfl
  | some yl =>
    obtain ⟨p, ps, rfl⟩ := List.exists_cons_of_ne_nil hd
    have hrows2 : ∀ r ∈ (p :: ps).map Prod.snd, r ≠ [] :=
      fun r hr => mem_map_snd_ne_nil _ hrows r hr
    simp only [computeYlim, List.map_cons, pyMin, pyMax]
    have hMmem := foldl_choice_mem
      (fun acc y => if pyListLt y acc = true then y else acc)
      (fun a b => by by_cases hab : pyListLt b a <;> simp [hab])
      (List.map Prod.snd ps) p.2
    have hXmem := foldl_choice_mem
      (fun acc y => if pyListLt acc y = true then y else acc)
      (fun a b => by by_cases hab : pyListLt a b <;> simp [hab])
      (List.map Prod.snd ps) p.2
    obtain ⟨a, rest, hM⟩ :=
      List.exists_cons_of_ne_nil (hrows2 _ (by rw [List.map_cons]; exact hMmem))
    obtain ⟨c, rest2, hX⟩ :=
      List.exists_cons_of_ne_nil (hrows2 _ (by rw [List.map_cons]; exact hXmem))
    rw [hM, hX]
    rfl

lemma computeXlim_ok (xlim : Option (Int × Int)) (t : Int) (ts : List Int) :
    (computeXlim xlim (t :: ts)).isOk = true := by
  cases xlim with
  | none => rfl
  | some xl => simp [computeXlim, pyMin, pyMax, Except.isOk, Except.toBool]

lemma set_axes_limits_ok (ylim : Option (Rat × Rat))
    (xlim : Option (Int × Int)) (am : Rat) (bl : Rat × Rat)
    (data : List (String × List Rat)) (time : List Int)
    (hd : data ≠ []) (hrows : ∀ p ∈ data, p.2 ≠ []) (ht : time ≠ []) :
    (set_axes_limits ylim xlim am bl data time).isOk = true := by
  obtain ⟨t, ts, rfl⟩ := List.exists_cons_of_ne_nil ht
  have hy := computeYlim_ok ylim am bl data hd hrows
  cases hyv : computeYlim ylim am bl data with
  | error e => rw [hyv] at hy; simp [Except.isOk, Except.toBool] at hy
  | ok ys =>
    have hx := computeXlim_ok xlim t ts
    cases hxv : computeXlim xlim (t :: ts) with
    | error e => rw [hxv] at hx; simp [Except.isOk, Except.toBool] at hx
    | ok xs => rw [set_axes_limits_eq_ok _ _ _ _ _ _ _ _ hyv hxv]; rfl

lemma plotDraw_snd_isOk (cfg : Plotter) (st2 : PState) (b : Rat × Rat)
    (h : (set_axes_limits cfg.ylim cfg.xlim cfg.axes_margin b st2.data
        st2.time).isOk = true) :
    (plotDraw cfg st2 b).2.isOk = true := by
  unfold plotDraw
  cases hsv : set_axes_limits cfg.ylim cfg.xlim cfg.axes_margin b st2.data
      st2.time with
  | error e => rw [hsv] at h; simp [Except.isOk, Except.toBool] at h
  | ok a => rfl

/-! ### Claim theorems (third group) -/

lemma step_preserves (cfg : Plotter) (st : PState) (now : Int) (env : Env)
    (b : Rat × Rat) (figs : Bool)
    (hnd : cfg.var_names.Nodup)
    (hall : ∀ n ∈ cfg.var_names, (env n).isSome)
    (hkeys : st.data.map Prod.fst = cfg.var_names)
    (hinv : ∀ p ∈ st.data, p.2.length = st.time.length) :
    (VariablePlotter.step cfg st now env b figs).1.data.map Prod.fst
        = cfg.var_names
    ∧ ∀ p ∈ (VariablePlotter.step cfg st now env b figs).1.data,
        p.2.length
          = (VariablePlotter.step cfg st now env b figs).1.time.length := by
  have happ := appendLoop_all_some env cfg.var_names st.data hall
  have hst : (VariablePlotter.step cfg st now env b figs).1
      = ⟨st.time ++ [now],
         st.data.map (fun p => (p.1, p.2 ++ List.replicate
           (cfg.var_names.count p.1) ((env p.1).getD 0)))⟩ := by
    rw [VariablePlotter.step, update_fst]
    exact plot_fst cfg st now env b _ _ happ
  rw [hst]
  constructor
  · show (st.data.map _).map Prod.fst = cfg.var_names
    rw [← hkeys, List.map_map]
    congr 1
  · intro p hp
    obtain ⟨q, hq, rfl⟩ := List.mem_map.mp hp
    have hqmem : q.1 ∈ cfg.var_names := by
      rw [← hkeys]
      exact List.mem_map_of_mem Prod.fst hq
    have hcount : cfg.var_names.count q.1 = 1 :=
      List.count_eq_one_of_mem hnd hqmem
    simp [hcount, hinv q hq]

/-- C3: for every valid construction (distinct variable names) and every
sequence of lifecycle calls in which every tracked attribute read off the
environment succeeds, afterwards the data dict still holds exactly the
tracked variables and the number of recorded time points equals the number
of recorded values of every tracked variable. -/
theorem runSteps_series_lengths_eq (cfg : Plotter) (calls : List StepCall)
    (hnd : cfg.var_names.Nodup)
    (hall : ∀ c ∈ calls, ∀ n ∈ cfg.var_names, (c.env n).isSome) :
    (runSteps cfg (initState cfg) calls).data.map Prod.fst = cfg.var_names
    ∧ ∀ p ∈ (runSteps cfg (initState cfg) calls).data,
        p.2.length = (runSteps cfg (initState cfg) calls).time.length := by
  suffices main : ∀ (cs : List StepCall) (st : PState),
      (∀ c ∈ cs, ∀ n ∈ cfg.var_names, (c.env n).isSome) →
      st.data.map Prod.fst = cfg.var_names →
      (∀ p ∈ st.data, p.2.length = st.time.length) →
      (runSteps cfg st cs).data.map Prod.fst = cfg.var_names
      ∧ ∀ p ∈ (runSteps cfg st cs).data,
          p.2.length = (runSteps cfg st cs).time.length by
    refine main calls (initState cfg) hall ?_ ?_
    · rw [initState, List.map_map]
      exact List.map_id _
    · intro p hp
      simp only [initState] at hp
      obtain ⟨n, hn, rfl⟩ := List.mem_map.mp hp
      rfl
  intro cs
  induction cs with
  | nil =>
    intro st _ hk hi
    exact ⟨hk, hi⟩
  | cons c cs ih =>
    intro st hcs hk hi
    simp only [runSteps]
    have hstep := step_preserves cfg st c.now c.env c.backend_ylim
      c.figuresOpen hnd (hcs c (List.mem_cons_self c cs)) hk hi
    exact ih _ (fun c' hc' => hcs c' (List.mem_cons_of_mem _ hc'))
      hstep.1 hstep.2

/-- C9: when the plotter tracks at least one variable, its data dict is
keyed by the tracked variables, and every tracked attribute is present on
the environment, a redraw appends the time sample and the variable values
before computing axis limits, and the axis-limit computation succeeds —
every `min`/`max` inside it is applied to a non-empty sequence, so the
empty-sequence `ValueError` branch is unreachable. -/
theorem plot_axis_policy_no_empty (cfg : Plotter) (st : PState) (now : Int)
    (env : Env) (b : Rat × Rat)
    (hne : cfg.var_names ≠ [])
    (hkeys : st.data.map Prod.fst = cfg.var_names)
    (hall : ∀ n ∈ cfg.var_names, (env n).isSome) :
    (VariablePlotter.plot cfg st now env b).1.time = st.time ++ [now]
    ∧ (VariablePlotter.plot cfg st now env b).2.isOk = true := by
  have happ := appendLoop_all_some env cfg.var_names st.data hall
  have hsdne : st.data ≠ [] := by
    intro h0
    apply hne
    rw [← hkeys, h0]
    rfl
  obtain ⟨q0, qs, hq0⟩ := List.exists_cons_of_ne_nil hsdne
  have hdne : st.data.map (fun p => (p.1, p.2 ++ List.replicate
      (cfg.var_names.count p.1) ((env p.1).getD 0))) ≠ [] := by
    rw [hq0]
    simp
  have hrows : ∀ p ∈ st.data.map (fun p => (p.1, p.2 ++ List.replicate
      (cfg.var_names.count p.1) ((env p.1).getD 0))), p.2 ≠ [] := by
    intro p hp
    obtain ⟨q, hq, rfl⟩ := List.mem_map.mp hp
    have hqmem : q.1 ∈ cfg.var_names := by
      rw [← hkeys]
      exact List.mem_map_of_mem Prod.fst hq
    have hcount : 0 < cfg.var_names.count q.1 := List.count_pos_iff.mpr hqmem
    intro h0
    have hlen := congrArg List.length h0
    simp only [List.length_append, List.length_replicate,
      List.length_nil] at hlen
    omega
  have hsal := set_axes_limits_ok cfg.ylim cfg.xlim cfg.axes_margin b
    _ (st.time ++ [now]) hdne hrows (by simp)
  constructor
  · rw [plot_fst cfg st now env b _ none happ]
  · rw [plot_eq_ok cfg st now env b _ happ]
    exact plotDraw_snd_isOk cfg ⟨st.time ++ [now], _⟩ b hsal

/-- C7: whenever a redraw succeeds on a plotter constructed with time-axis
floor limits `(x0, x1)`, the installed time-axis limits are exactly
`(min x0 (minimum of all accumulated times),
  max x1 (maximum of all accumulated times))`, with no margin term. -/
theorem plot_xlim_floor_merge (cfg : Plotter) (st : PState) (now : Int)
    (env : Env) (b : Rat × Rat) (st1 : PState) (r : RenderResult)
    (x0 x1 t : Int) (ts : List Int)
    (hx : cfg.xlim = some (x0, x1))
    (hp : VariablePlotter.plot cfg st now env b = (st1, .ok r))
    (ht : st1.time = t :: ts) :
    r.axes.xlimSet
      = some (min x0 (ts.foldl min t), max x1 (ts.foldl max t)) := by
  cases happ : appendLoop env cfg.var_names st.data with
  | mk d e =>
    cases e with
    | some e =>
      rw [plot_eq_err cfg st now env b d e happ] at hp
      simp at hp
    | none =>
      rw [plot_eq_ok cfg st now env b d happ] at hp
      cases hyv : computeYlim cfg.ylim cfg.axes_margin b d with
      | error e =>
        have hsal := set_axes_limits_yerr cfg.ylim cfg.xlim cfg.axes_margin
          b d (st.time ++ [now]) e hyv
        unfold plotDraw at hp
        rw [hsal] at hp
        simp at hp
      | ok ys =>
        cases hxv : computeXlim cfg.xlim (st.time ++ [now]) with
        | error e =>
          have hsal := set_axes_limits_xerr cfg.ylim cfg.xlim
            cfg.axes_margin b d (st.time ++ [now]) ys e hyv hxv
          unfold plotDraw at hp
          rw [hsal] at hp
          simp at hp
        | ok xs =>
          have hsal := set_axes_limits_eq_ok cfg.ylim cfg.xlim
            cfg.axes_margin b d (st.time ++ [now]) ys xs hyv hxv
          unfold plotDraw at hp
          rw [hsal] at hp
          simp only [Prod.mk.injEq, Except.ok.injEq] at hp
          obtain ⟨hst1, hr⟩ := hp
          have htime : st.time ++ [now] = t :: ts := by
            rw [← ht, ← hst1]
          rw [hx, htime, computeXlim_some_eq] at hxv
          simp only [Except.ok.injEq] at hxv
          rw [← hr, ← hxv]

/-- C8: when a frame output directory is configured and an `update` call
(the body of both `start` and `step`) completes successfully, it writes
exactly one image file, named by the current time value zero-padded to 5
digits plus the `.png` extension, inside that directory; in particular the
names for times 0, 1, 2 are `00000`, `00001`, `00002`. -/
theorem update_frame_export (cfg : Plotter) (st : PState) (now : Int)
    (env : Env) (b : Rat × Rat) (figs : Bool) (dir : String) (st1 : PState)
    (r : RenderResult) (files : List String)
    (hdir : cfg.output_dir = some dir)
    (hup : VariablePlotter.update cfg st now env b figs
        = (st1, .ok r, files)) :
    files = [dir ++ "/" ++ format05 now ++ ".png"]
    ∧ format05 0 = "00000" ∧ format05 1 = "00001" ∧ format05 2 = "00002" := by
  refine ⟨?_, by rfl, by rfl, by rfl⟩
  cases hps : VariablePlotter.plot cfg st now env b with
  | mk st0 res =>
    cases res with
    | error e =>
      rw [update_plot_error cfg st now env b figs st0 e hps] at hup
      simp at hup
    | ok r0 =>
      cases figs with
      | false =>
        rw [update_false_terminated cfg st now env b st0 r0 hps] at hup
        simp at hup
      | true =>
        rw [update_true_frames cfg st now env b st0 r0 dir hdir hps] at hup
        simp only [Prod.mk.injEq] at hup
        rw [← hup.2.2]
        rfl

/-! ### Witnesses for the remaining claim theorems -/

/-- C10 witness: tracking "a" then "b" with "b" missing on the
environment, the failed step leaves the time series one longer than the
series of "b". -/
theorem step_partial_append_on_error_witness :
    (VariablePlotter.step
        ⟨["a", "b"], [("a", "x"), ("b", "x")], 0, none, none, 1, none, 1 / 100⟩
        ⟨[], [("a", []), ("b", [])]⟩ 0
        (fun n => if n = "a" then some (2 : Rat) else none) (0, 0) true).2.1
      = .err (.attributeNotFound "b")
    ∧ ∀ p ∈ (VariablePlotter.step
        ⟨["a", "b"], [("a", "x"), ("b", "x")], 0, none, none, 1, none, 1 / 100⟩
        ⟨[], [("a", []), ("b", [])]⟩ 0
        (fun n => if n = "a" then some (2 : Rat) else none) (0, 0) true).1.data,
        p.1 ∈ ["b"] →
          (VariablePlotter.step
            ⟨["a", "b"], [("a", "x"), ("b", "x")], 0, none, none, 1, none,
              1 / 100⟩
            ⟨[], [("a", []), ("b", [])]⟩ 0
            (fun n => if n = "a" then some (2 : Rat) else none) (0, 0)
            true).1.time.length = p.2.length + 1 := by
  exact step_partial_append_on_error
    ⟨["a", "b"], [("a", "x"), ("b", "x")], 0, none, none, 1, none, 1 / 100⟩
    ⟨[], [("a", []), ("b", [])]⟩ 0
    (fun n => if n = "a" then some (2 : Rat) else none) (0, 0) true
    ["a"] [] "b" rfl (by decide) (by decide) (by decide) (by decide)

/-- C3 witness: two successful steps on a single-variable plotter leave
one recorded value per recorded time point. -/
theorem runSteps_series_lengths_eq_witness :
    (runSteps ⟨["a"], [("a", "b")], 0, none, none, 1 / 1000, none, 1 / 100⟩
        (initState ⟨["a"], [("a", "b")], 0, none, none, 1 / 1000, none,
          1 / 100⟩)
        [⟨0, fun _ => some (1 : Rat), (0, 0), true⟩,
         ⟨1, fun _ => some (2 : Rat), (0, 0), true⟩]).data.map Prod.fst
      = ["a"]
    ∧ ∀ p ∈ (runSteps ⟨["a"], [("a", "b")], 0, none, none, 1 / 1000, none,
          1 / 100⟩
        (initState ⟨["a"], [("a", "b")], 0, none, none, 1 / 1000, none,
          1 / 100⟩)
        [⟨0, fun _ => some (1 : Rat), (0, 0), true⟩,
         ⟨1, fun _ => some (2 : Rat), (0, 0), true⟩]).data,
        p.2.length
          = (runSteps ⟨["a"], [("a", "b")], 0, none, none, 1 / 1000, none,
              1 / 100⟩
            (initState ⟨["a"], [("a", "b")], 0, none, none, 1 / 1000, none,
              1 / 100⟩)
            [⟨0, fun _ => some (1 : Rat), (0, 0), true⟩,
             ⟨1, fun _ => some (2 : Rat), (0, 0), true⟩]).time.length := by
  exact runSteps_series_lengths_eq
    ⟨["a"], [("a", "b")], 0, none, none, 1 / 1000, none, 1 / 100⟩
    [⟨0, fun _ => some (1 : Rat), (0, 0), true⟩,
     ⟨1, fun _ => some (2 : Rat), (0, 0), true⟩]
    (by decide)
    (by
      intro c hc n hn
      rcases List.mem_cons.mp hc with rfl | hc
      · rfl
      rcases List.mem_cons.mp hc with rfl | hc
      · rfl
      · cases hc)

/-- C9 witness: a single-variable plotter with both floor limits set,
stepped on a fully-populated environment, computes its axis limits with no
empty-sequence error. -/
theorem plot_axis_policy_no_empty_witness :
    (VariablePlotter.plot
        ⟨["a"], [("a", "b")], 0, some (0, 2), some (0, 10), 1 / 1000, none,
          1 / 100⟩
        ⟨[], [("a", [])]⟩ 3 (fun _ => some (7 : Rat)) (0, 1)).1.time
      = [] ++ [3]
    ∧ (VariablePlotter.plot
        ⟨["a"], [("a", "b")], 0, some (0, 2), some (0, 10), 1 / 1000, none,
          1 / 100⟩
        ⟨[], [("a", [])]⟩ 3 (fun _ => some (7 : Rat)) (0, 1)).2.isOk
      = true := by
  exact plot_axis_policy_no_empty
    ⟨["a"], [("a", "b")], 0, some (0, 2), some (0, 10), 1 / 1000, none,
      1 / 100⟩
    ⟨[], [("a", [])]⟩ 3 (fun _ => some (7 : Rat)) (0, 1)
    (by decide) (by decide) (fun n _ => rfl)

/-- C7 witness: with time-axis floor limits `(0, 2)` and a single
accumulated time `7`, the redraw installs time-axis limits
`(min 0 7, max 2 7)`. -/
theorem plot_xlim_floor_merge_witness :
    (⟨[7], [("a", [5])], ⟨none, some (0, 7)⟩⟩ : RenderResult).axes.xlimSet
      = some (min 0 (List.foldl min 7 []), max 2 (List.foldl max 7 [])) := by
  exact plot_xlim_floor_merge
    ⟨["a"], [("a", "b")], 0, some (0, 2), none, 1 / 1000, none, 1 / 100⟩
    ⟨[], [("a", [])]⟩ 7 (fun _ => some (5 : Rat)) (0, 1)
    ⟨[7], [("a", [5])]⟩ ⟨[7], [("a", [5])], ⟨none, some (0, 7)⟩⟩
    0 2 7 [] rfl rfl rfl

/-- C8 witness: a successful update with output directory "frames" at time
0 writes exactly the file `frames/00000.png`. -/
theorem update_frame_export_witness :
    [savePath "frames" 0] = ["frames" ++ "/" ++ format05 0 ++ ".png"]
    ∧ format05 0 = "00000" ∧ format05 1 = "00001" ∧ format05 2 = "00002" := by
  exact update_frame_export
    ⟨["a"], [("a", "b")], 0, none, none, 1 / 1000, some "frames", 1 / 100⟩
    ⟨[], [("a", [])]⟩ 0 (fun _ => some (1 : Rat)) (0, 0) true "frames"
    ⟨[0], [("a", [1])]⟩ ⟨[0], [("a", [1])], ⟨none, none⟩⟩
    [savePath "frames" 0] rfl rfl

end Dworp
